import Mathlib

/-!
Verification of the retrieval-augmented answering orchestrator
(backend/ai_generator.py) and of the vector-store result-cap policy.

The orchestrator is embedded shallowly: the completion provider is an
arbitrary function from the call index to a response, the tool manager is
an arbitrary function from a tool name and arguments to either a result
string or a raised exception (modelled as an Except error), and the
`while True` loop is run on explicit fuel, one unit per loop iteration
(each iteration makes exactly one provider call).  A run records the
final outcome together with the full list of provider requests and the
full list of tool dispatches, in order, so that properties about call
counts, request contents and dispatch order can be stated directly.

`RunResult.fuelOut` means the loop was still running when the fuel ran
out; a program run that yields `fuelOut` for every fuel value never
terminates.  `RunResult.crash` models the IndexError raised by
`response.content[0]` on an empty content list.
-/

/-- A content block of a provider response, mirroring the block objects
used by backend/ai_generator.py (type, text, name, id, input). -/
structure ContentBlock where
  type : String
  text : String := ""
  name : String := ""
  id : String := ""
  input : List (String × String) := []
deriving Repr, DecidableEq

/-- A provider response: a list of content blocks and a stop reason. -/
structure ProviderResponse where
  content : List ContentBlock
  stop_reason : String
deriving Repr, DecidableEq

/-- One tool_result entry placed in the combined user turn. -/
structure ToolResultEntry where
  type : String
  tool_use_id : String
  content : String
deriving Repr, DecidableEq

/-- The content of one message in the message list: the initial query
text, an assistant turn holding the raw provider blocks, or a user turn
holding tool results. -/
inductive MessageContent where
  | text (s : String)
  | blocks (bs : List ContentBlock)
  | toolResults (rs : List ToolResultEntry)
deriving Repr, DecidableEq

/-- A message of the conversation transcript sent to the provider. -/
structure Message where
  role : String
  content : MessageContent
deriving Repr, DecidableEq

/-- A tool schema as advertised to the provider (passed through verbatim
by the orchestrator, so only its identity matters here). -/
structure ToolSchema where
  name : String
  description : String := ""
deriving Repr, DecidableEq

/-- The request sent to the completion provider.  A `none` in `tools` or
`tool_choice` models the absence of that key from the request dict. -/
structure ApiParams where
  model : String
  temperature : Nat
  max_tokens : Nat
  system : String
  messages : List Message
  tools : Option (List ToolSchema)
  tool_choice : Option String
deriving Repr, DecidableEq

/-- The tool manager: `execute_tool name input` either returns a result
string or raises an exception carrying a message (`Except.error`). -/
structure ToolManager where
  execute_tool : String → List (String × String) → Except String String

/-- Outcome of a run: a returned answer string, a crash on an empty
content list, or fuel exhaustion (the loop is still running). -/
inductive RunResult where
  | answer (s : String)
  | crash
  | fuelOut
deriving Repr, DecidableEq

/-- A run of generate_response: its outcome, the provider requests made
(in call order) and the tool dispatches performed (in dispatch order,
each recorded as the tool name with its arguments). -/
structure RunState where
  result : RunResult
  requests : List ApiParams
  dispatches : List (String × List (String × String))
deriving Repr, DecidableEq

/-- `AIGenerator.MAX_ROUNDS` from backend/ai_generator.py. -/
def MAX_ROUNDS : Nat := 2

/-- `AIGenerator.SYSTEM_PROMPT` from backend/ai_generator.py. -/
def SYSTEM_PROMPT : String := " You are an AI assistant specialized in course materials and educational content with access to a comprehensive search tool for course information.

Search Tool Usage:
- Use the search tool **only** for questions about specific course content or detailed educational materials
- You may perform **up to two sequential searches** if the first result is insufficient or a follow-up lookup is genuinely needed to fully answer the question. Use this sparingly.
- After all searches are complete, synthesize results into a single, accurate, fact-based response
- If searches yield no results, state this clearly without offering alternatives

Response Protocol:
- **General knowledge questions**: Answer using existing knowledge without searching
- **Course-specific questions**: Search first, then answer
- **Course outline / syllabus questions**: Use the `get_course_outline` tool. Return the course title, course link, and the complete lesson list with every lesson number and lesson title.
- **No meta-commentary**:
 - Provide direct answers only — no reasoning process, search explanations, or question-type analysis
 - Do not mention \"based on the search results\"


All responses must be:
1. **Brief, Concise and focused** - Get to the point quickly
2. **Educational** - Maintain instructional value
3. **Clear** - Use accessible language
4. **Example-supported** - Include relevant examples when they aid understanding
Provide only the direct answer to what was asked.
"

/-- The system content built at the top of generate_response: the static
prompt, with the conversation history folded in when the history string
is truthy (present and non-empty, per Python truthiness). -/
def buildSystemContent : Option String → String
  | some h => if h ≠ "" then SYSTEM_PROMPT ++ "\n\nPrevious conversation:\n" ++ h else SYSTEM_PROMPT
  | none => SYSTEM_PROMPT

/-- Python truthiness of the optional tools list: truthy exactly when it
is a present, non-empty list. -/
def optListNonempty : Option (List ToolSchema) → Bool
  | some (_ :: _) => true
  | _ => false

/-- The request assembled for one provider call: the pre-built base
parameters (model, temperature 0, max_tokens 800), the system content,
the current messages, and — only when the round counter is still below
MAX_ROUNDS and the tools list is truthy — the tools plus an automatic
tool_choice. -/
def mkApiParams (model system_content : String) (messages : List Message)
    (tools : Option (List ToolSchema)) (rounds : Nat) : ApiParams :=
  let tools_for_this_call := if rounds < MAX_ROUNDS then tools else none
  { model := model
    temperature := 0
    max_tokens := 800
    system := system_content
    messages := messages
    tools := if optListNonempty tools_for_this_call then tools_for_this_call else none
    tool_choice := if optListNonempty tools_for_this_call then some "auto" else none }

/-- The textual result of dispatching one tool_use block: the result of
execute_tool, or, when it raises, the substituted failure text. -/
def execContent (mgr : ToolManager) (b : ContentBlock) : String :=
  match mgr.execute_tool b.name b.input with
  | Except.ok s => s
  | Except.error e => "Tool execution failed: " ++ e

/-- The tool_result entry produced for one tool_use block: it echoes the
id of the originating block as tool_use_id. -/
def toolResultEntry (mgr : ToolManager) (b : ContentBlock) : ToolResultEntry :=
  { type := "tool_result", tool_use_id := b.id, content := execContent mgr b }

/-- The per-round dispatch loop over the response content: every block
whose type is tool_use is dispatched in order; the first component is the
list of tool_result entries, the second the dispatch log. -/
def dispatchBlocks (mgr : ToolManager) : List ContentBlock → List ToolResultEntry × List (String × List (String × String))
  | [] => ([], [])
  | b :: rest =>
    let pr := dispatchBlocks mgr rest
    if b.type = "tool_use" then
      (toolResultEntry mgr b :: pr.1, (b.name, b.input) :: pr.2)
    else pr

/-- Exit path of the loop: return `response.content[0].text`, crashing
when the content list is empty. -/
def exitState (api_params : ApiParams) (response : ProviderResponse) : RunState :=
  match response.content.head? with
  | some b => ⟨RunResult.answer b.text, [api_params], []⟩
  | none => ⟨RunResult.crash, [api_params], []⟩

/-- The message list passed to the next iteration after a tool round:
the assistant turn with the raw response content, then — only when at
least one tool_result was produced — one single user turn holding all of
them. -/
def stepMessages (messages : List Message) (response : ProviderResponse) (mgr : ToolManager) : List Message :=
  (messages ++ [⟨"assistant", MessageContent.blocks response.content⟩]) ++
    (if (dispatchBlocks mgr response.content).1 = [] then []
     else [⟨"user", MessageContent.toolResults (dispatchBlocks mgr response.content).1⟩])

/-- Combine one continuing iteration with the rest of the run. -/
def contState (api_params : ApiParams) (ds : List (String × List (String × String)))
    (rest : RunState) : RunState :=
  ⟨rest.result, api_params :: rest.requests, ds ++ rest.dispatches⟩

/-- The `while True` loop of generate_response, run on explicit fuel
(one unit per iteration; each iteration makes exactly one provider call,
and the call index always equals the round counter). -/
def genLoop (model : String) (provider : Nat → ProviderResponse) (system_content : String)
    (tools : Option (List ToolSchema)) (tool_manager : Option ToolManager) :
    Nat → List Message → Nat → RunState
  | 0, _, _ => ⟨RunResult.fuelOut, [], []⟩
  | fuel + 1, messages, rounds =>
    match tool_manager with
    | none => exitState (mkApiParams model system_content messages tools rounds) (provider rounds)
    | some mgr =>
      if (provider rounds).stop_reason ≠ "tool_use" then
        exitState (mkApiParams model system_content messages tools rounds) (provider rounds)
      else
        contState (mkApiParams model system_content messages tools rounds)
          (dispatchBlocks mgr (provider rounds).content).2
          (genLoop model provider system_content tools tool_manager fuel
            (stepMessages messages (provider rounds) mgr) (rounds + 1))

/-- `AIGenerator.generate_response`: build the system content, seed the
message list with the single user query message, and run the loop from
round 0. -/
def generate_response (model query : String) (conversation_history : Option String)
    (tools : Option (List ToolSchema)) (tool_manager : Option ToolManager)
    (provider : Nat → ProviderResponse) (fuel : Nat) : RunState :=
  genLoop model provider (buildSystemContent conversation_history) tools tool_manager fuel
    [⟨"user", MessageContent.text query⟩] 0

/-! ### The vector store result-cap policy (claim C4)

The file backend/vector_store.py is not included under src/ — only its
tests are — so the store is modelled from the spec. -/

/-- Modelled from the spec: construction of the vector store
(`VectorStore` in backend/vector_store.py, absent from src/).  Per the
spec (§9, known defect: the source behavior "silently returns zero
search results when its configured result cap is zero rather than
rejecting the configuration") and per the repository tests, construction
stores the configured maximum result count unchanged, with no validation
or clamping. -/
structure VectorStore where
  max_results : Int
deriving Repr, DecidableEq

/-- Modelled from the spec: the constructor performs no check on the
configured maximum result count. -/
def VectorStore.build (max_results : Int) : VectorStore :=
  ⟨max_results⟩

/-- Modelled from the spec: one similarity query "requesting up to a
configured maximum result count" ranked "by ascending distance (nearest
first)" — given the similarity-ranked documents of the index for the
query, the store returns the first `max_results` of them. -/
def VectorStore.search (store : VectorStore) (ranked_index : List String) : List String :=
  ranked_index.take store.max_results.toNat

/-! ### Helper lemmas about the orchestrator loop -/

/-- The exit path makes exactly the one request it was given. -/
theorem exitState_requests (a : ApiParams) (r : ProviderResponse) :
    (exitState a r).requests = [a] := by
  unfold exitState
  cases r.content.head? <;> rfl

/-- The exit path dispatches no tool. -/
theorem exitState_dispatches (a : ApiParams) (r : ProviderResponse) :
    (exitState a r).dispatches = [] := by
  unfold exitState
  cases r.content.head? <;> rfl

/-- The exit path returns the text of the first content block. -/
theorem exitState_result (a : ApiParams) (r : ProviderResponse) (b : ContentBlock)
    (h : r.content.head? = some b) :
    (exitState a r).result = RunResult.answer b.text := by
  unfold exitState
  rw [h]

/-- With no tool manager configured, an iteration always takes the exit
path. -/
theorem genLoop_none_mgr (model sys : String) (p : Nat → ProviderResponse)
    (tools : Option (List ToolSchema)) (fuel : Nat) (msgs : List Message) (r : Nat) :
    genLoop model p sys tools none (fuel + 1) msgs r =
      exitState (mkApiParams model sys msgs tools r) (p r) := rfl

/-- When the response is not a tool-use request, an iteration takes the
exit path. -/
theorem genLoop_exit {model sys : String} {p : Nat → ProviderResponse}
    {tools : Option (List ToolSchema)} {mgr : ToolManager} {msgs : List Message} {r : Nat}
    (fuel : Nat) (h : (p r).stop_reason ≠ "tool_use") :
    genLoop model p sys tools (some mgr) (fuel + 1) msgs r =
      exitState (mkApiParams model sys msgs tools r) (p r) := by
  simp only [genLoop]
  rw [if_pos h]

/-- When the response is a tool-use request and a manager is available,
an iteration dispatches the blocks and continues. -/
theorem genLoop_cont {model sys : String} {p : Nat → ProviderResponse}
    {tools : Option (List ToolSchema)} {mgr : ToolManager} {msgs : List Message} {r : Nat}
    (fuel : Nat) (h : (p r).stop_reason = "tool_use") :
    genLoop model p sys tools (some mgr) (fuel + 1) msgs r =
      contState (mkApiParams model sys msgs tools r)
        (dispatchBlocks mgr (p r).content).2
        (genLoop model p sys tools (some mgr) fuel (stepMessages msgs (p r) mgr) (r + 1)) := by
  simp only [genLoop]
  rw [if_neg (by simp [h])]

/-- The dispatch loop in closed form: it processes exactly the tool_use
blocks, in order, producing one tool_result entry and one dispatch-log
entry per block. -/
theorem dispatchBlocks_eq (mgr : ToolManager) (bs : List ContentBlock) :
    dispatchBlocks mgr bs =
      ((bs.filter fun b => b.type == "tool_use").map (toolResultEntry mgr),
       (bs.filter fun b => b.type == "tool_use").map fun b => (b.name, b.input)) := by
  induction bs with
  | nil => rfl
  | cons b rest ih =>
    by_cases h : b.type = "tool_use" <;>
      simp [dispatchBlocks, ih, List.filter_cons, h]

/-! ### Claims C1 and C2: the round ceiling -/

/-- A provider that requests the same tool invocation on every call,
whatever the request contained — including calls whose request carries
no tool schemas. -/
def advProvider : Nat → ProviderResponse :=
  fun _ => ⟨[⟨"tool_use", "", "search_course_content", "adv1", [("query", "python")]⟩], "tool_use"⟩

/-- A tool manager whose dispatches always succeed. -/
def okMgr : ToolManager := ⟨fun _ _ => Except.ok "Mock search result"⟩

/-- Against the always-tool-use provider the loop never takes its exit
path: every unit of fuel is consumed by a full iteration, each making
one provider request and one tool dispatch. -/
theorem advLoop_never_exits (model sys : String) (tools : Option (List ToolSchema)) :
    ∀ (fuel : Nat) (msgs : List Message) (r : Nat),
      (genLoop model advProvider sys tools (some okMgr) fuel msgs r).result = RunResult.fuelOut ∧
      (genLoop model advProvider sys tools (some okMgr) fuel msgs r).requests.length = fuel ∧
      (genLoop model advProvider sys tools (some okMgr) fuel msgs r).dispatches.length = fuel := by
  intro fuel
  induction fuel with
  | zero =>
    intro msgs r
    exact ⟨rfl, rfl, rfl⟩
  | succ fuel ih =>
    intro msgs r
    rw [genLoop_cont fuel (by rfl)]
    obtain ⟨ih1, ih2, ih3⟩ := ih (stepMessages msgs (advProvider r) okMgr) (r + 1)
    refine ⟨ih1, ?_, ?_⟩
    · simp [contState, ih2]
    · have hds : (dispatchBlocks okMgr (advProvider r).content).2 =
        [("search_course_content", [("query", "python")])] := rfl
      simp [contState, hds, ih3]

/-- **C2.** The claim states that a tool-use response to the
ceiling-enforced, schema-free provider call terminates the loop and is
surfaced as a generic failure answer, never dispatched as another round.
The code does the opposite: with non-empty tools, a tool manager, and a
provider that answers tool_use on every call (including the third call,
whose request carries no tool schemas), every fuel bound is exhausted
with one provider request and one tool dispatch per iteration — the
post-ceiling tool-use response is dispatched as a further round and the
loop never returns any answer. -/
theorem C2_post_ceiling_tool_use_dispatched :
    ∀ fuel : Nat,
      (generate_response "claude-test-model" "What is Python?" none
          (some [⟨"search_course_content", "Search course materials."⟩])
          (some okMgr) advProvider fuel).result = RunResult.fuelOut ∧
      (generate_response "claude-test-model" "What is Python?" none
          (some [⟨"search_course_content", "Search course materials."⟩])
          (some okMgr) advProvider fuel).requests.length = fuel ∧
      (generate_response "claude-test-model" "What is Python?" none
          (some [⟨"search_course_content", "Search course materials."⟩])
          (some okMgr) advProvider fuel).dispatches.length = fuel :=
  fun fuel =>
    advLoop_never_exits "claude-test-model" (buildSystemContent none)
      (some [⟨"search_course_content", "Search course materials."⟩]) fuel
      [⟨"user", MessageContent.text "What is Python?"⟩] 0

/-- **C1 (counterexample).** The claim states that for a sequence of
provider responses that all request a tool invocation, generate_response
terminates after exactly MAX_ROUNDS + 1 = 3 provider calls.  At this
concrete input — non-empty tools, a tool manager, and a provider whose
every response requests a tool — the run has already made 5 provider
calls within fuel 5 and still has no answer, so it does not terminate
after 3 calls. -/
theorem C1_counterexample :
    (generate_response "m" "q" none (some [⟨"search_course_content", "d"⟩])
        (some okMgr) advProvider 5).requests.length = 5 ∧
    (generate_response "m" "q" none (some [⟨"search_course_content", "d"⟩])
        (some okMgr) advProvider 5).result = RunResult.fuelOut := by
  constructor <;> rfl

/-- **C1 (amended).** With non-empty tools and a tool manager, if the
first two provider responses request a tool invocation and the provider
answers the third, ceiling-enforced call plainly (as a provider honouring
the protocol does when no tool schemas are offered), then
generate_response makes exactly MAX_ROUNDS + 1 = 3 provider calls, the
first two requests carry the tool schemas, the final request carries
none, and the third response text is returned. -/
theorem C1_round_ceiling_compliant_provider (model q : String) (hist : Option String)
    (t0 : ToolSchema) (ts : List ToolSchema) (mgr : ToolManager)
    (p : Nat → ProviderResponse) (f : Nat) (b : ContentBlock)
    (h0 : (p 0).stop_reason = "tool_use")
    (h1 : (p 1).stop_reason = "tool_use")
    (h2 : (p 2).stop_reason ≠ "tool_use")
    (hb : (p 2).content.head? = some b) :
    (generate_response model q hist (some (t0 :: ts)) (some mgr) p (f + 1 + 1 + 1)).requests.length = 3 ∧
    (generate_response model q hist (some (t0 :: ts)) (some mgr) p (f + 1 + 1 + 1)).requests.map
        (fun req => req.tools) = [some (t0 :: ts), some (t0 :: ts), none] ∧
    (generate_response model q hist (some (t0 :: ts)) (some mgr) p (f + 1 + 1 + 1)).result =
      RunResult.answer b.text := by
  unfold generate_response
  rw [genLoop_cont (f + 1 + 1) h0, genLoop_cont (f + 1) h1, genLoop_exit f h2]
  refine ⟨?_, ?_, ?_⟩
  · simp [contState, exitState_requests]
  · simp [contState, exitState_requests, mkApiParams, optListNonempty, MAX_ROUNDS]
  · simp [contState, exitState_result _ _ _ hb]

/-- The tool-use block of the concrete compliant run used to witness
the amended C1. -/
def c1Block : ContentBlock :=
  ⟨"tool_use", "", "search_course_content", "r1", [("query", "first")]⟩

/-- The plain final response of that run. -/
def c1Final : ProviderResponse :=
  ⟨[{ type := "text", text := "Final answer after two searches." }], "end_turn"⟩

/-- The concrete compliant provider: two tool-use responses, then a
plain answer on the schema-free third call. -/
def c1Provider : Nat → ProviderResponse :=
  fun k => if k < 2 then ⟨[c1Block], "tool_use"⟩ else c1Final

/-- Witness for C1 (amended): the compliant run makes exactly 3 provider
calls and returns the final text. -/
theorem C1_witness :
    (c1Provider 0).stop_reason = "tool_use" ∧
    (c1Provider 1).stop_reason = "tool_use" ∧
    (c1Provider 2).stop_reason ≠ "tool_use" ∧
    (generate_response "m" "Multi-step question" none (some [⟨"search_course_content", "d"⟩])
        (some okMgr) c1Provider (0 + 1 + 1 + 1)).requests.length = 3 ∧
    (generate_response "m" "Multi-step question" none (some [⟨"search_course_content", "d"⟩])
        (some okMgr) c1Provider (0 + 1 + 1 + 1)).result =
      RunResult.answer "Final answer after two searches." := by
  have h := C1_round_ceiling_compliant_provider "m" "Multi-step question" none
    ⟨"search_course_content", "d"⟩ [] okMgr c1Provider 0
    { type := "text", text := "Final answer after two searches." }
    (by decide) (by decide) (by decide) (by decide)
  exact ⟨by decide, by decide, by decide, h.1, h.2.2⟩

/-! ### Claim C3: tool-failure resilience -/

/-- **C3.** For a requested tool invocation whose dispatch raises an
exception, the orchestrator substitutes the textual result
"Tool execution failed: <message>", feeds it back in the combined user
turn of the next request, and — the exception never propagating — still
returns the eventual provider answer text. -/
theorem C3_tool_failure_resilience (model q : String) (hist : Option String)
    (tools : Option (List ToolSchema)) (mgr : ToolManager)
    (bk : ContentBlock) (e : String) (r2 : ProviderResponse) (b2 : ContentBlock) (f : Nat)
    (p : Nat → ProviderResponse)
    (hty : bk.type = "tool_use")
    (herr : mgr.execute_tool bk.name bk.input = Except.error e)
    (hp0 : p 0 = ⟨[bk], "tool_use"⟩)
    (hp1 : p 1 = r2)
    (h2 : r2.stop_reason ≠ "tool_use")
    (hb2 : r2.content.head? = some b2) :
    (generate_response model q hist tools (some mgr) p (f + 1 + 1)).result =
      RunResult.answer b2.text ∧
    (generate_response model q hist tools (some mgr) p (f + 1 + 1)).requests.map
        (fun req => req.messages) =
      [[⟨"user", MessageContent.text q⟩],
       [⟨"user", MessageContent.text q⟩,
        ⟨"assistant", MessageContent.blocks [bk]⟩,
        ⟨"user", MessageContent.toolResults
          [⟨"tool_result", bk.id, "Tool execution failed: " ++ e⟩]⟩]] := by
  have hstop0 : (p 0).stop_reason = "tool_use" := by rw [hp0]
  have hstop1 : (p 1).stop_reason ≠ "tool_use" := by rw [hp1]; exact h2
  unfold generate_response
  rw [genLoop_cont (f + 1) hstop0, genLoop_exit f hstop1]
  have hdisp : dispatchBlocks mgr [bk] =
      ([⟨"tool_result", bk.id, "Tool execution failed: " ++ e⟩], [(bk.name, bk.input)]) := by
    simp [dispatchBlocks, hty, toolResultEntry, execContent, herr]
  constructor
  · rw [hp1]
    simp [contState, exitState_result _ _ _ hb2]
  · simp [contState, exitState_requests, stepMessages, hp0, hdisp, mkApiParams]

/-- Witness for C3: a concrete run whose single dispatched tool raises
"ChromaDB unavailable". -/
theorem C3_witness :
    (⟨fun _ _ => Except.error "ChromaDB unavailable"⟩ : ToolManager).execute_tool
        "search_course_content" [("query", "q")] = Except.error "ChromaDB unavailable" ∧
    (generate_response "m" "q" none (some [⟨"search_course_content", "d"⟩])
        (some ⟨fun _ _ => Except.error "ChromaDB unavailable"⟩)
        (fun k => if k = 0 then ⟨[⟨"tool_use", "", "search_course_content", "e1", [("query", "q")]⟩], "tool_use"⟩
          else ⟨[{ type := "text", text := "I could not retrieve results." }], "end_turn"⟩)
        (0 + 1 + 1)).result = RunResult.answer "I could not retrieve results." := by
  have h := C3_tool_failure_resilience "m" "q" none (some [⟨"search_course_content", "d"⟩])
    ⟨fun _ _ => Except.error "ChromaDB unavailable"⟩
    ⟨"tool_use", "", "search_course_content", "e1", [("query", "q")]⟩
    "ChromaDB unavailable"
    ⟨[{ type := "text", text := "I could not retrieve results." }], "end_turn"⟩
    { type := "text", text := "I could not retrieve results." } 0
    (fun k => if k = 0 then ⟨[⟨"tool_use", "", "search_course_content", "e1", [("query", "q")]⟩], "tool_use"⟩
      else ⟨[{ type := "text", text := "I could not retrieve results." }], "end_turn"⟩)
    rfl rfl rfl rfl (by decide) rfl
  exact ⟨rfl, h.1⟩

/-! ### Claim C5: early exit -/

/-- **C5.** If, after k - 1 tool-use responses, the k-th provider
response (k ≤ MAX_ROUNDS) is a plain answer, generate_response makes
exactly k provider calls and returns the answer text of that response. -/
theorem C5_early_exit (model q : String) (hist : Option String)
    (tools : Option (List ToolSchema)) (mgr : ToolManager)
    (p : Nat → ProviderResponse) (f k : Nat) (b : ContentBlock)
    (hk1 : 1 ≤ k) (hk2 : k ≤ MAX_ROUNDS)
    (htool : ∀ i, i < k - 1 → (p i).stop_reason = "tool_use")
    (hexit : (p (k - 1)).stop_reason ≠ "tool_use")
    (hb : (p (k - 1)).content.head? = some b) :
    (generate_response model q hist tools (some mgr) p (f + MAX_ROUNDS)).requests.length = k ∧
    (generate_response model q hist tools (some mgr) p (f + MAX_ROUNDS)).result =
      RunResult.answer b.text := by
  have hfuel : f + MAX_ROUNDS = f + 1 + 1 := rfl
  rw [hfuel]
  unfold generate_response
  have hk : k = 1 ∨ k = 2 := by
    rw [MAX_ROUNDS] at hk2
    omega
  rcases hk with rfl | rfl
  · rw [genLoop_exit (f + 1) hexit]
    exact ⟨by simp [exitState_requests], by rw [exitState_result _ _ _ hb]⟩
  · rw [genLoop_cont (f + 1) (htool 0 (by norm_num)), genLoop_exit f hexit]
    constructor
    · simp [contState, exitState_requests]
    · simp [contState, exitState_result _ _ _ hb]

/-- Witness for C5: a single tool round followed by a plain answer —
exactly 2 provider calls. -/
theorem C5_witness :
    (1 : Nat) ≤ 2 ∧ (2 : Nat) ≤ MAX_ROUNDS ∧
    (generate_response "m" "What is ML?" none (some [⟨"search_course_content", "d"⟩])
        (some okMgr)
        (fun k => if k = 0 then ⟨[⟨"tool_use", "", "search_course_content", "s1", [("query", "basics")]⟩], "tool_use"⟩
          else ⟨[{ type := "text", text := "Single-round answer." }], "end_turn"⟩)
        (0 + MAX_ROUNDS)).requests.length = 2 ∧
    (generate_response "m" "What is ML?" none (some [⟨"search_course_content", "d"⟩])
        (some okMgr)
        (fun k => if k = 0 then ⟨[⟨"tool_use", "", "search_course_content", "s1", [("query", "basics")]⟩], "tool_use"⟩
          else ⟨[{ type := "text", text := "Single-round answer." }], "end_turn"⟩)
        (0 + MAX_ROUNDS)).result = RunResult.answer "Single-round answer." := by
  have h := C5_early_exit "m" "What is ML?" none (some [⟨"search_course_content", "d"⟩])
    okMgr
    (fun k => if k = 0 then ⟨[⟨"tool_use", "", "search_course_content", "s1", [("query", "basics")]⟩], "tool_use"⟩
      else ⟨[{ type := "text", text := "Single-round answer." }], "end_turn"⟩)
    0 2 { type := "text", text := "Single-round answer." }
    (by decide) (by decide)
    (by intro i hi; interval_cases i; rfl)
    (by decide) rfl
  exact ⟨by decide, by decide, h.1, h.2⟩

/-! ### Claim C8: no tool manager configured -/

/-- **C8.** With no tool manager configured, generate_response makes
exactly one provider call and returns the first content block text of
that response — whatever its stop reason, tool_use included. -/
theorem C8_no_tool_manager_single_call (model q : String) (hist : Option String)
    (tools : Option (List ToolSchema)) (p : Nat → ProviderResponse) (f : Nat)
    (b : ContentBlock)
    (hb : (p 0).content.head? = some b) :
    (generate_response model q hist tools none p (f + 1)).requests.length = 1 ∧
    (generate_response model q hist tools none p (f + 1)).result = RunResult.answer b.text := by
  unfold generate_response
  rw [genLoop_none_mgr]
  exact ⟨by simp [exitState_requests], by rw [exitState_result _ _ _ hb]⟩

/-- Witness for C8: the provider answers with stop reason tool_use, yet
with no tool manager the run still stops after one call and returns the
first block text. -/
theorem C8_witness :
    ((fun _ => (⟨[⟨"tool_use", "General answer.", "search_course_content", "t1", [("query", "x")]⟩], "tool_use"⟩ : ProviderResponse)) 0).content.head? =
      some ⟨"tool_use", "General answer.", "search_course_content", "t1", [("query", "x")]⟩ ∧
    (generate_response "m" "q" none (some [⟨"search_course_content", "d"⟩]) none
        (fun _ => ⟨[⟨"tool_use", "General answer.", "search_course_content", "t1", [("query", "x")]⟩], "tool_use"⟩)
        (0 + 1)).requests.length = 1 ∧
    (generate_response "m" "q" none (some [⟨"search_course_content", "d"⟩]) none
        (fun _ => ⟨[⟨"tool_use", "General answer.", "search_course_content", "t1", [("query", "x")]⟩], "tool_use"⟩)
        (0 + 1)).result = RunResult.answer "General answer." := by
  have h := C8_no_tool_manager_single_call "m" "q" none
    (some [⟨"search_course_content", "d"⟩])
    (fun _ => ⟨[⟨"tool_use", "General answer.", "search_course_content", "t1", [("query", "x")]⟩], "tool_use"⟩)
    0 ⟨"tool_use", "General answer.", "search_course_content", "t1", [("query", "x")]⟩ rfl
  exact ⟨rfl, h.1, h.2⟩

/-! ### Claim C6: per-round dispatch order and the combined result turn -/

/-- **C6.** Within one tool-calling round, the tool_use blocks of the
provider response are dispatched sequentially in the order they appear
in the content, and all results are appended as one single user-role
turn holding one tool_result entry per invocation, each entry carrying
the id of the originating block as its tool_use_id. -/
theorem C6_tool_dispatch_order_and_results (model q : String) (hist : Option String)
    (tools : Option (List ToolSchema)) (mgr : ToolManager)
    (bs : List ContentBlock) (r2 : ProviderResponse) (b2 : ContentBlock) (f : Nat)
    (p : Nat → ProviderResponse)
    (hp0 : p 0 = ⟨bs, "tool_use"⟩)
    (hp1 : p 1 = r2)
    (hne : (bs.filter fun x => x.type == "tool_use") ≠ [])
    (h2 : r2.stop_reason ≠ "tool_use")
    (hb2 : r2.content.head? = some b2) :
    (generate_response model q hist tools (some mgr) p (f + 1 + 1)).dispatches =
      (bs.filter fun x => x.type == "tool_use").map (fun x => (x.name, x.input)) ∧
    (generate_response model q hist tools (some mgr) p (f + 1 + 1)).requests.map
        (fun req => req.messages) =
      [[⟨"user", MessageContent.text q⟩],
       [⟨"user", MessageContent.text q⟩,
        ⟨"assistant", MessageContent.blocks bs⟩,
        ⟨"user", MessageContent.toolResults
          ((bs.filter fun x => x.type == "tool_use").map
            (fun x => ⟨"tool_result", x.id, execContent mgr x⟩))⟩]] ∧
    (generate_response model q hist tools (some mgr) p (f + 1 + 1)).result =
      RunResult.answer b2.text := by
  have hstop0 : (p 0).stop_reason = "tool_use" := by rw [hp0]
  have hstop1 : (p 1).stop_reason ≠ "tool_use" := by rw [hp1]; exact h2
  unfold generate_response
  rw [genLoop_cont (f + 1) hstop0, genLoop_exit f hstop1]
  refine ⟨?_, ?_, ?_⟩
  · simp [contState, exitState_dispatches, hp0, dispatchBlocks_eq]
  · simp [contState, exitState_requests, stepMessages, hp0, dispatchBlocks_eq, hne,
      mkApiParams, toolResultEntry]
  · rw [hp1]
    simp [contState, exitState_result _ _ _ hb2]

/-- Witness for C6: a round requesting two tool invocations — both are
dispatched in request order and both results land in one user turn with
the matching tool_use_ids. -/
theorem C6_witness :
    (generate_response "m" "q" none (some [⟨"search_course_content", "d"⟩]) (some okMgr)
        (fun k => if k = 0 then ⟨[⟨"tool_use", "", "search_course_content", "a1", [("query", "find course")]⟩,
            ⟨"tool_use", "", "get_course_outline", "a2", [("course_name", "Course X")]⟩], "tool_use"⟩
          else ⟨[{ type := "text", text := "Here is the outline." }], "end_turn"⟩)
        (0 + 1 + 1)).dispatches =
      [("search_course_content", [("query", "find course")]),
       ("get_course_outline", [("course_name", "Course X")])] ∧
    (generate_response "m" "q" none (some [⟨"search_course_content", "d"⟩]) (some okMgr)
        (fun k => if k = 0 then ⟨[⟨"tool_use", "", "search_course_content", "a1", [("query", "find course")]⟩,
            ⟨"tool_use", "", "get_course_outline", "a2", [("course_name", "Course X")]⟩], "tool_use"⟩
          else ⟨[{ type := "text", text := "Here is the outline." }], "end_turn"⟩)
        (0 + 1 + 1)).result = RunResult.answer "Here is the outline." := by
  have h := C6_tool_dispatch_order_and_results "m" "q" none
    (some [⟨"search_course_content", "d"⟩]) okMgr
    [⟨"tool_use", "", "search_course_content", "a1", [("query", "find course")]⟩,
     ⟨"tool_use", "", "get_course_outline", "a2", [("course_name", "Course X")]⟩]
    ⟨[{ type := "text", text := "Here is the outline." }], "end_turn"⟩
    { type := "text", text := "Here is the outline." } 0
    (fun k => if k = 0 then ⟨[⟨"tool_use", "", "search_course_content", "a1", [("query", "find course")]⟩,
        ⟨"tool_use", "", "get_course_outline", "a2", [("course_name", "Course X")]⟩], "tool_use"⟩
      else ⟨[{ type := "text", text := "Here is the outline." }], "end_turn"⟩)
    rfl rfl (by decide) (by decide) rfl
  exact ⟨by rw [h.1]; rfl, h.2.2⟩

/-! ### Claim C7: history folding into the system content -/

/-- The first provider request of any run carries the seeded message
list and the system content built at the top of generate_response. -/
theorem genLoop_requests_head (model sys : String) (p : Nat → ProviderResponse)
    (tools : Option (List ToolSchema)) (mgrOpt : Option ToolManager)
    (fuel : Nat) (msgs : List Message) (r : Nat) :
    (genLoop model p sys tools mgrOpt (fuel + 1) msgs r).requests.head? =
      some (mkApiParams model sys msgs tools r) := by
  rcases mgrOpt with _ | mgr
  · rw [genLoop_none_mgr, exitState_requests]
    rfl
  · by_cases h : (p r).stop_reason ≠ "tool_use"
    · rw [genLoop_exit fuel h, exitState_requests]
      rfl
    · rw [genLoop_cont fuel (not_ne_iff.mp h)]
      rfl

/-- **C7 (counterexample).** The claim states that a provided
conversation-history string is folded into the system content with a
"Previous conversation:" prefix.  The empty history string is provided
yet not folded: Python truthiness treats it as absent, the request
carries exactly the static prompt, and that prompt differs from what the
claimed folding would produce. -/
theorem C7_counterexample :
    (generate_response "m" "q" (some "") none none
        (fun _ => ⟨[{ type := "text", text := "Answer." }], "end_turn"⟩) 1).requests.map
        (fun req => req.system) = [SYSTEM_PROMPT] ∧
    SYSTEM_PROMPT ≠ SYSTEM_PROMPT ++ "\n\nPrevious conversation:\n" ++ "" := by
  refine ⟨rfl, fun hcontra => ?_⟩
  have hlen := congrArg String.length hcontra
  rw [String.length_append, String.length_append] at hlen
  have h25 : ("\n\nPrevious conversation:\n" : String).length = 25 := rfl
  have h0 : ("" : String).length = 0 := rfl
  rw [h25, h0] at hlen
  omega

/-- **C7 (amended).** When a non-empty conversation-history string is
provided, the first request carries the static prompt with the history
appended under the "Previous conversation:" prefix and a message list
holding exactly the one user query message; when the history is absent,
the first request carries exactly the static prompt, and the same single
user message. -/
theorem C7_history_folding (model q h : String) (hh : h ≠ "")
    (tools : Option (List ToolSchema)) (mgrOpt : Option ToolManager)
    (p : Nat → ProviderResponse) (f : Nat) :
    (generate_response model q (some h) tools mgrOpt p (f + 1)).requests.head?.map
        (fun req => (req.system, req.messages)) =
      some (SYSTEM_PROMPT ++ "\n\nPrevious conversation:\n" ++ h,
        [⟨"user", MessageContent.text q⟩]) ∧
    (generate_response model q none tools mgrOpt p (f + 1)).requests.head?.map
        (fun req => (req.system, req.messages)) =
      some (SYSTEM_PROMPT, [⟨"user", MessageContent.text q⟩]) := by
  unfold generate_response
  rw [genLoop_requests_head, genLoop_requests_head]
  constructor
  · simp [mkApiParams, buildSystemContent, hh]
  · simp [mkApiParams, buildSystemContent]

/-- Witness for C7 (amended): a concrete non-empty history is folded in
verbatim. -/
theorem C7_witness :
    ("User: Hello\nAssistant: Hi there" : String) ≠ "" ∧
    (generate_response "m" "test" (some "User: Hello\nAssistant: Hi there") none none
        (fun _ => ⟨[{ type := "text", text := "Answer." }], "end_turn"⟩) (0 + 1)).requests.head?.map
        (fun req => (req.system, req.messages)) =
      some (SYSTEM_PROMPT ++ "\n\nPrevious conversation:\n" ++ "User: Hello\nAssistant: Hi there",
        [⟨"user", MessageContent.text "test"⟩]) := by
  have h := C7_history_folding "m" "test" "User: Hello\nAssistant: Hi there" (by decide)
    none none (fun _ => ⟨[{ type := "text", text := "Answer." }], "end_turn"⟩) 0
  exact ⟨by decide, h.1⟩

/-! ### Claim C9: the tools / tool_choice request invariant -/

/-- The tools and tool_choice fields of one assembled request: the tools
key is present exactly when the tools argument is a present non-empty
list and the round counter is below MAX_ROUNDS, and whenever it is
present it holds that list and tool_choice is auto. -/
theorem mkApiParams_tools_spec (model sys : String) (msgs : List Message)
    (tools : Option (List ToolSchema)) (r : Nat) :
    ((mkApiParams model sys msgs tools r).tools ≠ none ↔
      ((∃ l, tools = some l ∧ l ≠ []) ∧ r < MAX_ROUNDS)) ∧
    ((mkApiParams model sys msgs tools r).tools ≠ none →
      (mkApiParams model sys msgs tools r).tool_choice = some "auto") := by
  by_cases hr : r < MAX_ROUNDS <;>
    rcases tools with _ | ⟨_ | ⟨x, xs⟩⟩ <;>
      simp [mkApiParams, optListNonempty, hr]

/-- The i-th request of any run of the loop started at round counter r0
satisfies the tools-key invariant at round r0 + i. -/
theorem genLoop_tools_key (model sys : String) (p : Nat → ProviderResponse)
    (tools : Option (List ToolSchema)) (mgrOpt : Option ToolManager) :
    ∀ (fuel : Nat) (msgs : List Message) (r0 i : Nat) (req : ApiParams),
      (genLoop model p sys tools mgrOpt fuel msgs r0).requests.get? i = some req →
      ((req.tools ≠ none ↔ ((∃ l, tools = some l ∧ l ≠ []) ∧ r0 + i < MAX_ROUNDS)) ∧
       (req.tools ≠ none → req.tool_choice = some "auto")) := by
  intro fuel
  induction fuel with
  | zero =>
    intro msgs r0 i req hreq
    simp [genLoop] at hreq
  | succ fuel ih =>
    intro msgs r0 i req hreq
    have hsingle : ∀ a : ApiParams, ([a] : List ApiParams).get? i = some req →
        req = a ∧ i = 0 := by
      intro a ha
      cases i with
      | zero => exact ⟨by simpa using ha.symm, rfl⟩
      | succ j => simp at ha
    rcases mgrOpt with _ | mgr
    · rw [genLoop_none_mgr, exitState_requests] at hreq
      obtain ⟨rfl, rfl⟩ := hsingle _ hreq
      simpa using mkApiParams_tools_spec model sys msgs tools r0
    · by_cases hs : (p r0).stop_reason ≠ "tool_use"
      · rw [genLoop_exit fuel hs, exitState_requests] at hreq
        obtain ⟨rfl, rfl⟩ := hsingle _ hreq
        simpa using mkApiParams_tools_spec model sys msgs tools r0
      · rw [genLoop_cont fuel (not_ne_iff.mp hs)] at hreq
        cases i with
        | zero =>
          have : req = mkApiParams model sys msgs tools r0 := by
            simpa [contState] using hreq.symm
          subst this
          simpa using mkApiParams_tools_spec model sys msgs tools r0
        | succ j =>
          have hrest : (genLoop model p sys tools (some mgr) fuel
              (stepMessages msgs (p r0) mgr) (r0 + 1)).requests.get? j = some req := by
            simpa [contState] using hreq
          have := ih (stepMessages msgs (p r0) mgr) (r0 + 1) j req hrest
          rwa [show r0 + 1 + j = r0 + (j + 1) by omega] at this

/-- **C9.** On every provider call of a run, the request carries a tools
key exactly when the tools argument is a present non-empty list and the
call index (equal to the round counter) is strictly below MAX_ROUNDS —
so an empty or absent tools argument never produces a tools key — and
whenever the tools key is present, tool_choice auto is present alongside
it. -/
theorem C9_tools_key_invariant (model q : String) (hist : Option String)
    (tools : Option (List ToolSchema)) (mgrOpt : Option ToolManager)
    (p : Nat → ProviderResponse) (fuel i : Nat) (req : ApiParams)
    (hreq : (generate_response model q hist tools mgrOpt p fuel).requests.get? i = some req) :
    (req.tools ≠ none ↔ ((∃ l, tools = some l ∧ l ≠ []) ∧ i < MAX_ROUNDS)) ∧
    (req.tools ≠ none → req.tool_choice = some "auto") := by
  have := genLoop_tools_key model (buildSystemContent hist) p tools mgrOpt fuel
    [⟨"user", MessageContent.text q⟩] 0 i req hreq
  simpa using this

/-- Witness for C9: on the first call of a concrete run with one tool
schema, the tools key is present and tool_choice is auto. -/
theorem C9_witness :
    (generate_response "m" "q" none (some [⟨"search_course_content", "d"⟩]) (some okMgr)
        advProvider 1).requests.get? 0 =
      some (mkApiParams "m" SYSTEM_PROMPT [⟨"user", MessageContent.text "q"⟩]
        (some [⟨"search_course_content", "d"⟩]) 0) ∧
    ((mkApiParams "m" SYSTEM_PROMPT [⟨"user", MessageContent.text "q"⟩]
        (some [⟨"search_course_content", "d"⟩]) 0).tools ≠ none ↔
      ((∃ l, (some [(⟨"search_course_content", "d"⟩ : ToolSchema)]) = some l ∧ l ≠ []) ∧
        0 < MAX_ROUNDS)) ∧
    ((mkApiParams "m" SYSTEM_PROMPT [⟨"user", MessageContent.text "q"⟩]
        (some [⟨"search_course_content", "d"⟩]) 0).tools ≠ none →
      (mkApiParams "m" SYSTEM_PROMPT [⟨"user", MessageContent.text "q"⟩]
        (some [⟨"search_course_content", "d"⟩]) 0).tool_choice = some "auto") := by
  have h := C9_tools_key_invariant "m" "q" none (some [⟨"search_course_content", "d"⟩])
    (some okMgr) advProvider 1 0
    (mkApiParams "m" SYSTEM_PROMPT [⟨"user", MessageContent.text "q"⟩]
      (some [⟨"search_course_content", "d"⟩]) 0) rfl
  exact ⟨rfl, h.1, h.2⟩

/-! ### Claim C10: base parameters are constant across the calls of a run -/

/-- Every request of any run of the loop carries the same model, the
temperature 0, the max_tokens 800 and the system content it was started
with. -/
theorem genLoop_base_params (model sys : String) (p : Nat → ProviderResponse)
    (tools : Option (List ToolSchema)) (mgrOpt : Option ToolManager) :
    ∀ (fuel : Nat) (msgs : List Message) (r0 : Nat) (req : ApiParams),
      req ∈ (genLoop model p sys tools mgrOpt fuel msgs r0).requests →
      req.model = model ∧ req.temperature = 0 ∧ req.max_tokens = 800 ∧ req.system = sys := by
  intro fuel
  induction fuel with
  | zero =>
    intro msgs r0 req hreq
    simp [genLoop] at hreq
  | succ fuel ih =>
    intro msgs r0 req hreq
    have hmk : ∀ msgs1 r1, req = mkApiParams model sys msgs1 tools r1 →
        req.model = model ∧ req.temperature = 0 ∧ req.max_tokens = 800 ∧ req.system = sys := by
      intro msgs1 r1 h
      subst h
      exact ⟨rfl, rfl, rfl, rfl⟩
    rcases mgrOpt with _ | mgr
    · rw [genLoop_none_mgr, exitState_requests] at hreq
      exact hmk msgs r0 (List.mem_singleton.mp hreq)
    · by_cases hs : (p r0).stop_reason ≠ "tool_use"
      · rw [genLoop_exit fuel hs, exitState_requests] at hreq
        exact hmk msgs r0 (List.mem_singleton.mp hreq)
      · rw [genLoop_cont fuel (not_ne_iff.mp hs)] at hreq
        rcases List.mem_cons.mp hreq with h | h
        · exact hmk msgs r0 h
        · exact ih (stepMessages msgs (p r0) mgr) (r0 + 1) req h

/-- **C10.** Across all provider calls of a single run, the system
content and the base sampling parameters are identical: every request
carries the model the generator was constructed with, temperature 0,
max_tokens 800, and the system content built once from the prompt and
the optional history. -/
theorem C10_stable_base_params (model q : String) (hist : Option String)
    (tools : Option (List ToolSchema)) (mgrOpt : Option ToolManager)
    (p : Nat → ProviderResponse) (fuel : Nat) (req : ApiParams)
    (hreq : req ∈ (generate_response model q hist tools mgrOpt p fuel).requests) :
    req.model = model ∧ req.temperature = 0 ∧ req.max_tokens = 800 ∧
    req.system = buildSystemContent hist := by
  exact genLoop_base_params model (buildSystemContent hist) p tools mgrOpt fuel
    [⟨"user", MessageContent.text q⟩] 0 req hreq

/-- Witness for C10: the second request of a concrete two-round run
carries the same base parameters and system content as the first. -/
theorem C10_witness :
    (mkApiParams "m" SYSTEM_PROMPT
        (stepMessages [⟨"user", MessageContent.text "q"⟩] (advProvider 0) okMgr)
        (some [⟨"search_course_content", "d"⟩]) 1) ∈
      (generate_response "m" "q" none (some [⟨"search_course_content", "d"⟩]) (some okMgr)
        advProvider 2).requests ∧
    (mkApiParams "m" SYSTEM_PROMPT
        (stepMessages [⟨"user", MessageContent.text "q"⟩] (advProvider 0) okMgr)
        (some [⟨"search_course_content", "d"⟩]) 1).model = "m" ∧
    (mkApiParams "m" SYSTEM_PROMPT
        (stepMessages [⟨"user", MessageContent.text "q"⟩] (advProvider 0) okMgr)
        (some [⟨"search_course_content", "d"⟩]) 1).temperature = 0 ∧
    (mkApiParams "m" SYSTEM_PROMPT
        (stepMessages [⟨"user", MessageContent.text "q"⟩] (advProvider 0) okMgr)
        (some [⟨"search_course_content", "d"⟩]) 1).max_tokens = 800 ∧
    (mkApiParams "m" SYSTEM_PROMPT
        (stepMessages [⟨"user", MessageContent.text "q"⟩] (advProvider 0) okMgr)
        (some [⟨"search_course_content", "d"⟩]) 1).system = buildSystemContent none := by
  have hmem : (mkApiParams "m" SYSTEM_PROMPT
      (stepMessages [⟨"user", MessageContent.text "q"⟩] (advProvider 0) okMgr)
      (some [⟨"search_course_content", "d"⟩]) 1) ∈
      (generate_response "m" "q" none (some [⟨"search_course_content", "d"⟩]) (some okMgr)
        advProvider 2).requests := by
    rw [show (2 : Nat) = 1 + 1 from rfl]
    unfold generate_response
    rw [genLoop_cont 1 (by rfl), genLoop_cont 0 (by rfl)]
    simp [contState, buildSystemContent]
  have h := C10_stable_base_params "m" "q" none (some [⟨"search_course_content", "d"⟩])
    (some okMgr) advProvider 2 _ hmem
  exact ⟨hmem, h.1, h.2.1, h.2.2.1, h.2.2.2⟩

/-! ### Claim C4: the zero result cap is neither rejected nor clamped -/

/-- **C4.** The claim states that construction of the vector store with
a configured maximum result count of zero must reject or clamp, never
yielding a store whose searches return empty results on a non-empty
index.  In the modelled store, construction with a cap of zero succeeds
with the cap stored unchanged, and a search over a non-empty index
returns the empty result list. -/
theorem C4_max_results_zero_not_clamped :
    (VectorStore.build 0).max_results = 0 ∧
    (["Lesson 1 content: Python variables store data."] : List String) ≠ [] ∧
    (VectorStore.build 0).search ["Lesson 1 content: Python variables store data."] = [] := by
  exact ⟨rfl, by decide, rfl⟩
